import Mathlib

/-!
# ConvertedTab: the Tab that owns one tree of panes

Shallow embedding of `src/cascadia/TerminalApp/ConvertedTab.cpp`.

* `ConvertedTab` is embedded member function by member function; every
  non-const member returns the Tab it leaves behind together with the outbound
  calls it made (`Effect`), in the order it made them.
* `Pane` (Pane.h / Pane.cpp) and the property declarations of ConvertedTab.h are
  not part of the sources at hand; the few Pane members the Tab calls are
  modelled from the specification and are marked as such.
* A `std::shared_ptr<Pane>` is a `PaneId`, the identity of a live Pane object:
  the node of the Tab's tree with that identity or, when the tree has none, the
  Pane object alive outside the tree that the store `Outside` holds for it.
  `p->m()` reads, and for a non-const `m` writes, the object `p` designates;
  there is no guard and no failed lookup. The null pointer is not a value of the
  embedding: `_activePane` is assigned from `std::make_shared` in the
  constructor and, in the GotFocus lambda, from a sender the lambda then calls
  through.
* A `TermControl` is a handle to an external surface; the mutable state of the
  surfaces lives in a store `Controls`.
-/

namespace TerminalApp

/-! ## External types -/

/-- Profile identifier (`GUID`). -/
abbrev GUID := Nat

/-- Text value (`winrt::hstring`). -/
abbrev hstring := String

/-- Settings value (`TerminalSettings`), opaque to the Tab. -/
abbrev TerminalSettings := Nat

/-- Non-null reference to a terminal surface (`TermControl`); the null control
is `none` of `Option TermControl`. -/
abbrev TermControl := Nat

/-- Identity of a Pane object (the address a `std::shared_ptr<Pane>` holds). -/
abbrev PaneId := Nat

/-- Modelled from the spec: what a terminal-surface handle exposes to the core
(section 6): a readable title, the scroll offset, and the settings last applied. -/
structure ControlState where
  title : hstring
  scrollOffset : Int
  settings : TerminalSettings
deriving DecidableEq

/-- Store of the surfaces: the state behind every `TermControl` reference. -/
abbrev Controls := TermControl → ControlState

/-- Argument of `TermControl::Focus`. -/
inductive FocusState where
  | Unfocused
  | Pointer
  | Keyboard
  | Programmatic
deriving DecidableEq

/-- The lambda queued by `ConvertedTab::Scroll` (lines 129-132) with its
by-value captures `[control, delta]`. -/
structure ScrollCallback where
  control : TermControl
  delta : Int
deriving DecidableEq

/-- Outbound calls made by the Tab, recorded in program order. -/
inductive Effect where
  /-- Call `_ClosedHandlers(sender, args)`: the Tab's own Closed event. -/
  | Closed (sender : Option Nat) (args : Option Nat)
  /-- Call `_ActivePaneChangedHandlers()`: the Tab's own ActivePaneChanged event. -/
  | ActivePaneChanged
  /-- Signal `PropertyChanged(name)`. -/
  | PropertyChanged (name : String)
  /-- Call `control.Focus(state)`. -/
  | Focus (control : TermControl) (state : FocusState)
  /-- Call `control.Dispatcher().RunAsync(CoreDispatcherPriority::Normal, callback)`. -/
  | RunAsync (callback : ScrollCallback)
deriving DecidableEq

/-! ## Pane (modelled from the spec) -/

/-- The handlers ConvertedTab.cpp registers on a pane's `Closed` event: the
lambda of lines 16-18. -/
inductive ClosedHandler where
  | tabClosed
deriving DecidableEq

/-- The handlers ConvertedTab.cpp registers on a pane's `GotFocus` event: the
lambda of lines 261-277. -/
inductive GotFocusHandler where
  | tabGotFocus
deriving DecidableEq

/-- Modelled from the spec: the state every Pane node has (section 3: `id`,
`isActive`) and the registrations of its two events (section 4.1, "Events
exposed"; section 9, explicit callback registration with ordered delivery). -/
structure PaneCommon where
  id : PaneId
  lastActive : Bool
  closedHandlers : List ClosedHandler
  gotFocusHandlers : List GotFocusHandler
deriving DecidableEq

/-- Modelled from the spec: Pane is a tagged union (section 3). A leaf owns one
surface handle and the profile it was created under; a split owns two child
panes. Orientation, split ratio and bounds are left out: no member of
ConvertedTab.cpp reads or writes them. -/
inductive Pane where
  | leaf (common : PaneCommon) (profile : GUID) (control : TermControl)
  | split (common : PaneCommon) (first : Pane) (second : Pane)
deriving DecidableEq

/-- Store of the Pane objects that are alive outside the Tab's tree, by identity:
what a `std::shared_ptr<Pane>` designates when no node of the tree has its
identity (a pane that has left the tree, or one not yet put into it). -/
abbrev Outside := PaneId → Pane

namespace Pane

/-- State shared by both variants. -/
def common : Pane → PaneCommon
  | leaf c _ _ => c
  | split c _ _ => c

/-- Identity of this node. -/
def id (p : Pane) : PaneId := p.common.id

/-- Replace the state shared by both variants. -/
def withCommon (f : PaneCommon → PaneCommon) : Pane → Pane
  | leaf c g t => leaf (f c) g t
  | split c a b => split (f c) a b

/-- Modelled from the spec: `Pane::Pane(profile, control, lastFocused)`, a leaf
wrapping `control` created under `profile`, with the active flag as given and no
event registrations. `addr` is the identity of the new object. -/
def create (addr : PaneId) (profile : GUID) (control : TermControl) (lastFocused : Bool) : Pane :=
  leaf { id := addr, lastActive := lastFocused, closedHandlers := [], gotFocusHandlers := [] }
    profile control

/-- Modelled from the spec: `Pane::Closed(handler)`, registration on the Closed
event; handlers are kept in registration order. -/
def Closed (p : Pane) (handler : ClosedHandler) : Pane :=
  p.withCommon fun c => { c with closedHandlers := c.closedHandlers ++ [handler] }

/-- Modelled from the spec: `Pane::GotFocus(handler)`, registration on the
GotFocus event; handlers are kept in registration order. -/
def GotFocus (p : Pane) (handler : GotFocusHandler) : Pane :=
  p.withCommon fun c => { c with gotFocusHandlers := c.gotFocusHandlers ++ [handler] }

/-- Modelled from the spec: `Pane::ClearActive`, which "clears the active flag
tree-wide" (section 4.2): on this node and on every descendant. -/
def ClearActive : Pane → Pane
  | leaf c g t => leaf { c with lastActive := false } g t
  | split c a b => split { c with lastActive := false } a.ClearActive b.ClearActive

/-- Modelled from the spec: `Pane::SetActive`, which marks this one node active
(section 4.2, "sets sender active"). -/
def SetActive (p : Pane) : Pane :=
  p.withCommon fun c => { c with lastActive := true }

/-- Modelled from the spec: `Pane::GetTerminalControl`. A leaf answers with the
surface it wraps; an interior pane "has no terminal-surface handle of its own"
(section 2) and answers with the null control. -/
def GetTerminalControl : Pane → Option TermControl
  | leaf _ _ t => some t
  | split _ _ _ => none

/-- Modelled from the spec: `Pane::GetFocusedProfile`. A leaf answers with the
profile it wraps; a pane that is not a leaf answers nullopt (section 4.2,
"return an empty/absent result if there is no active leaf"). -/
def GetFocusedProfile : Pane → Option GUID
  | leaf _ g _ => some g
  | split _ _ _ => none

/-- The node of the tree `root` whose identity is `ref`, searched in pre-order;
`none` when the tree has no such node. -/
def find? (ref : PaneId) : Pane → Option Pane
  | leaf c g t => if c.id = ref then some (leaf c g t) else none
  | split c a b =>
    if c.id = ref then some (split c a b)
    else match find? ref a with
      | some p => some p
      | none => find? ref b

/-- The tree in which the node with identity `ref` has been replaced by `f` of
it; a tree without such a node is returned as it is. -/
def modify (ref : PaneId) (f : Pane → Pane) : Pane → Pane
  | leaf c g t => if c.id = ref then f (leaf c g t) else leaf c g t
  | split c a b =>
    if c.id = ref then f (split c a b)
    else split c (modify ref f a) (modify ref f b)

/-- Dereference of a `std::shared_ptr<Pane>`: the Pane object `ref` designates,
which is the node of the tree with that identity or else the object outside the
tree. -/
def deref (root : Pane) (outside : Outside) (ref : PaneId) : Pane :=
  match root.find? ref with
  | some pane => pane
  | none => outside ref

/-- Non-const call `ref->f()` through a `std::shared_ptr<Pane>`: the object `ref`
designates is replaced by `f` of it, in the tree when it is a node of the tree
and in the store of outside panes otherwise. -/
def callThrough (root : Pane) (outside : Outside) (ref : PaneId) (f : Pane → Pane) :
    Pane × Outside :=
  match root.find? ref with
  | some _ => (root.modify ref f, outside)
  | none => (root, Function.update outside ref (f (outside ref)))

/-- Identities of all nodes, in pre-order. -/
def ids : Pane → List PaneId
  | leaf c _ _ => [c.id]
  | split c a b => c.id :: (a.ids ++ b.ids)

/-- Identities of the nodes whose active flag is set, in pre-order. -/
def activeIds : Pane → List PaneId
  | leaf c _ _ => if c.lastActive then [c.id] else []
  | split c a b => (if c.lastActive then [c.id] else []) ++ (a.activeIds ++ b.activeIds)

/-- The leaves as (identity, profile, surface), left to right. -/
def leaves : Pane → List (PaneId × GUID × TermControl)
  | leaf c g t => [(c.id, g, t)]
  | split _ a b => a.leaves ++ b.leaves

/-- Modelled from the spec: `TermControl::UpdateSettings(settings)`, the surface
takes the settings. -/
def applySettings (controls : Controls) (control : TermControl) (settings : TerminalSettings) :
    Controls :=
  Function.update controls control { controls control with settings := settings }

/-- Modelled from the spec: `Pane::UpdateSettings(settings, profile)`, which
"propagates to every leaf in the tree whose surface was created under
profileId; panes created under other profiles are untouched" (section 4.2). -/
def UpdateSettings (settings : TerminalSettings) (profile : GUID) : Pane → Controls → Controls
  | leaf _ g t, controls => if profile = g then applySettings controls t settings else controls
  | split _ a b, controls =>
    UpdateSettings settings profile b (UpdateSettings settings profile a controls)

end Pane

/-! ## ConvertedTab -/

/-- Members of `ConvertedTab`. `Title` and `IconPath` are the values behind the
property accessors of the same names. -/
structure Tab where
  /-- Field `_rootPane`: the tree the Tab owns. -/
  rootPane : Pane
  /-- Field `_activePane`: reference to the pane last marked active. -/
  activePane : PaneId
  /-- Field `_focused`. -/
  focused : Bool
  Title : hstring
  IconPath : hstring
deriving DecidableEq

/-- Value of C++ `int` arithmetic: the 32-bit two's-complement representative. -/
def toInt32 (x : Int) : Int := (x + 2147483648) % 4294967296 - 2147483648

namespace Tab

/-- Modelled from the spec: the setter `Title(value)` declared in ConvertedTab.h,
a display property that stores the value and signals `PropertyChanged`
(section 6). -/
def setTitle (tab : Tab) (value : hstring) : Tab × List Effect :=
  ({ tab with Title := value }, [Effect.PropertyChanged "Title"])

/-- Modelled from the spec: the setter `IconPath(value)` declared in
ConvertedTab.h, which "updates and implicitly signals a display-property change
to observers" (section 4.2). -/
def setIconPath (tab : Tab) (value : hstring) : Tab × List Effect :=
  ({ tab with IconPath := value }, [Effect.PropertyChanged "IconPath"])

/-- Body of the lambda registered on the root's Closed event (lines 16-18):
`_ClosedHandlers(nullptr, nullptr)`. -/
def closedLambda (tab : Tab) : Tab × List Effect :=
  (tab, [Effect.Closed none none])

/-- Constructor `ConvertedTab::ConvertedTab(profile, control)` (lines 12-21).
`addr` is the identity of the Pane object that `std::make_shared` allocates;
`focused`, `title` and `iconPath` are the values the member initialisers of the
header give to the members the constructor body does not assign. -/
def Construct (profile : GUID) (control : TermControl) (addr : PaneId)
    (focused : Bool) (title iconPath : hstring) : Tab :=
  let rootPane := Pane.create addr profile control true
  let rootPane := rootPane.Closed ClosedHandler.tabClosed
  { rootPane := rootPane, activePane := rootPane.id, focused := focused,
    Title := title, IconPath := iconPath }

/-- Accessor `ConvertedTab::GetActiveTerminalControl` (lines 39-42):
`_activePane->GetTerminalControl()`. -/
def GetActiveTerminalControl (tab : Tab) (outside : Outside) : Option TermControl :=
  (tab.rootPane.deref outside tab.activePane).GetTerminalControl

/-- Accessor `ConvertedTab::IsFocused` (lines 52-55). -/
def IsFocused (tab : Tab) : Bool := tab.focused

/-- Accessor `ConvertedTab::GetFocusedProfile` (lines 84-87):
`_activePane->GetFocusedProfile()`. -/
def GetFocusedProfile (tab : Tab) (outside : Outside) : Option GUID :=
  (tab.rootPane.deref outside tab.activePane).GetFocusedProfile

/-- Member `ConvertedTab::_Focus` (lines 95-104). -/
def _Focus (tab : Tab) (outside : Outside) : Tab × List Effect :=
  let tab := { tab with focused := true }
  match tab.GetActiveTerminalControl outside with
  | some lastFocusedControl => (tab, [Effect.Focus lastFocusedControl FocusState.Programmatic])
  | none => (tab, [])

/-- Member `ConvertedTab::SetFocused` (lines 65-73). -/
def SetFocused (tab : Tab) (outside : Outside) (focused : Bool) : Tab × List Effect :=
  let tab := { tab with focused := focused }
  if tab.focused then tab._Focus outside else (tab, [])

/-- Member `ConvertedTab::UpdateSettings` (lines 113-116):
`_rootPane->UpdateSettings(settings, profile)`. The Tab itself is not written;
the surfaces are. -/
def UpdateSettings (tab : Tab) (controls : Controls) (settings : TerminalSettings)
    (profile : GUID) : Tab × Controls :=
  (tab, tab.rootPane.UpdateSettings settings profile controls)

/-- Member `ConvertedTab::Scroll` (lines 126-133). The callback is handed to the
dispatcher, not run. `none` is the call of `Dispatcher()` on the null control. -/
def Scroll (tab : Tab) (outside : Outside) (delta : Int) : Option (Tab × List Effect) :=
  match tab.GetActiveTerminalControl outside with
  | some control => some (tab, [Effect.RunAsync { control := control, delta := delta }])
  | none => none

/-- Member `ConvertedTab::UpdateIcon` (lines 135-144). -/
def UpdateIcon (tab : Tab) (iconPath : hstring) : Tab × List Effect :=
  if iconPath = tab.IconPath then (tab, [])
  else tab.setIconPath iconPath

/-- Accessor `ConvertedTab::GetActiveTitle` (lines 153-157). -/
def GetActiveTitle (tab : Tab) (outside : Outside) (controls : Controls) : hstring :=
  match tab.GetActiveTerminalControl outside with
  | some lastFocusedControl => (controls lastFocusedControl).title
  | none => ""

/-- Guarded block of the GotFocus lambda (lines 264-276), for a Tab that is
still alive. Returns the Tab, the outside panes and the outbound calls. -/
def gotFocusBody (tab : Tab) (outside : Outside) (controls : Controls) (sender : PaneId) :
    Tab × Outside × List Effect :=
  if sender ≠ tab.activePane then
    let tab := { tab with rootPane := tab.rootPane.ClearActive }
    let tab := { tab with activePane := sender }
    let written := tab.rootPane.callThrough outside tab.activePane Pane.SetActive
    let tab := { tab with rootPane := written.1 }
    let (tab, signalled) := tab.setTitle (tab.GetActiveTitle written.2 controls)
    (tab, written.2, signalled ++ [Effect.ActivePaneChanged])
  else (tab, outside, [])

/-- The GotFocus lambda (lines 261-277). `weakThis` is what `weakThis.get()`
yields: the Tab, or nothing once its lifetime has expired. -/
def gotFocusLambda (weakThis : Option Tab) (outside : Outside) (controls : Controls)
    (sender : PaneId) : Option Tab × Outside × List Effect :=
  match weakThis with
  | some tab => let r := tab.gotFocusBody outside controls sender; (some r.1, r.2.1, r.2.2)
  | none => (none, outside, [])

/-- Member `ConvertedTab::_AttachEventHandlersToPane` (lines 257-278):
`pane->GotFocus(lambda)`. -/
def _AttachEventHandlersToPane (tab : Tab) (outside : Outside) (pane : PaneId) :
    Tab × Outside :=
  let written :=
    tab.rootPane.callThrough outside pane fun p => p.GotFocus GotFocusHandler.tabGotFocus
  ({ tab with rootPane := written.1 }, written.2)

/-- Run one registered Closed handler. -/
def runClosedHandler (tab : Tab) : ClosedHandler → Tab × List Effect
  | ClosedHandler.tabClosed => tab.closedLambda

/-- Run one registered GotFocus handler. -/
def runGotFocusHandler (tab : Tab) (outside : Outside) (controls : Controls)
    (sender : PaneId) : GotFocusHandler → Tab × Outside × List Effect
  | GotFocusHandler.tabGotFocus =>
    match gotFocusLambda (some tab) outside controls sender with
    | (some tab1, outside1, effects) => (tab1, outside1, effects)
    | (none, outside1, effects) => (tab, outside1, effects)

/-- Modelled from the spec: the root pane raises its Closed event. The handlers
registered on the root run synchronously, in registration order (section 5). -/
def raiseRootClosed (tab : Tab) : Tab × List Effect :=
  tab.rootPane.common.closedHandlers.foldl
    (fun acc handler => let r := acc.1.runClosedHandler handler; (r.1, acc.2 ++ r.2))
    (tab, [])

/-- Modelled from the spec: the root pane raises `GotFocus(sender)`. The
handlers registered on the root run synchronously, in registration order
(section 5). -/
def raiseRootGotFocus (tab : Tab) (outside : Outside) (controls : Controls)
    (sender : PaneId) : Tab × Outside × List Effect :=
  tab.rootPane.common.gotFocusHandlers.foldl
    (fun acc handler =>
      let r := acc.1.runGotFocusHandler acc.2.1 controls sender handler
      (r.1, r.2.1, acc.2.2 ++ r.2.2))
    (tab, outside, [])

end Tab

namespace ScrollCallback

/-- Body of the queued lambda (lines 130-131), run by the dispatcher against the
surfaces as they are at that moment. `KeyboardScrollViewport(v)` is modelled
from the spec as the `setScrollOffset` of section 6. -/
def run (callback : ScrollCallback) (controls : Controls) : Controls :=
  let currentOffset := (controls callback.control).scrollOffset
  Function.update controls callback.control
    { controls callback.control with scrollOffset := toInt32 (currentOffset + callback.delta) }

end ScrollCallback

/-- Number of times the Tab fired ActivePaneChanged. -/
def countActivePaneChanged (effects : List Effect) : Nat :=
  effects.count Effect.ActivePaneChanged

/-- Number of times the Tab fired its own Closed event. -/
def countClosed (effects : List Effect) : Nat :=
  (effects.filter fun e => match e with
    | Effect.Closed _ _ => true
    | _ => false).length

/-- Number of focus requests sent to surfaces. -/
def countFocus (effects : List Effect) : Nat :=
  (effects.filter fun e => match e with
    | Effect.Focus _ _ => true
    | _ => false).length

/-- Number of `PropertyChanged` signals. -/
def countPropertyChanged (effects : List Effect) : Nat :=
  (effects.filter fun e => match e with
    | Effect.PropertyChanged _ => true
    | _ => false).length

/-! ## Sample states -/

/-- Two-leaf tree: interior root 0 with leaves 1 (profile 7, surface 3, active)
and 2 (profile 8, surface 4). The Tab has its Closed subscription on the root. -/
def sampleRoot : Pane :=
  Pane.split { id := 0, lastActive := false, closedHandlers := [ClosedHandler.tabClosed],
               gotFocusHandlers := [] }
    (Pane.leaf { id := 1, lastActive := true, closedHandlers := [], gotFocusHandlers := [] } 7 3)
    (Pane.leaf { id := 2, lastActive := false, closedHandlers := [], gotFocusHandlers := [] } 8 4)

/-- Tab over `sampleRoot` whose active pane is leaf 1. -/
def sampleTab : Tab :=
  { rootPane := sampleRoot, activePane := 1, focused := false, Title := "one", IconPath := "a.png" }

/-- Surfaces for the samples: surface 3 is titled "one" at offset 10, every other
one is titled "two" at offset 20. -/
def sampleControls : Controls := fun h =>
  if h = 3 then { title := "one", scrollOffset := 10, settings := 0 }
  else { title := "two", scrollOffset := 20, settings := 0 }

/-- Outside panes for the samples: the object with identity `i` is a leaf created
under profile 9 that wraps surface `50 + i`. -/
def sampleOutside : Outside := fun i =>
  Pane.leaf { id := i, lastActive := false, closedHandlers := [], gotFocusHandlers := [] }
    9 (50 + i)

/-- Tab fresh from the constructor: profile 7, surface 3, root pane object 0. -/
def sampleFresh : Tab := Tab.Construct 7 3 0 false "" ""

/-! ## Lemmas on the pane tree -/

theorem Pane.ids_ClearActive (t : Pane) : t.ClearActive.ids = t.ids := by
  induction t with
  | leaf c g x => rfl
  | split c a b iha ihb => simp [Pane.ClearActive, Pane.ids, iha, ihb]

theorem Pane.leaves_ClearActive (t : Pane) : t.ClearActive.leaves = t.leaves := by
  induction t with
  | leaf c g x => rfl
  | split c a b iha ihb => simp [Pane.ClearActive, Pane.leaves, iha, ihb]

theorem Pane.activeIds_ClearActive (t : Pane) : t.ClearActive.activeIds = [] := by
  induction t with
  | leaf c g x => simp [Pane.ClearActive, Pane.activeIds]
  | split c a b iha ihb => simp [Pane.ClearActive, Pane.activeIds, iha, ihb]

theorem Pane.modify_of_not_mem (ref : PaneId) (f : Pane → Pane) (t : Pane)
    (h : ref ∉ t.ids) : t.modify ref f = t := by
  induction t with
  | leaf c g x =>
    simp only [Pane.ids, List.mem_singleton] at h
    simp [Pane.modify, Ne.symm h]
  | split c a b iha ihb =>
    simp only [Pane.ids, List.mem_cons, List.mem_append, not_or] at h
    simp [Pane.modify, Ne.symm h.1, iha h.2.1, ihb h.2.2]

theorem Pane.ids_modify_SetActive (ref : PaneId) (t : Pane) :
    (t.modify ref Pane.SetActive).ids = t.ids := by
  induction t with
  | leaf c g x =>
    by_cases h : c.id = ref <;> simp [Pane.modify, h, Pane.SetActive, Pane.withCommon, Pane.ids]
  | split c a b iha ihb =>
    by_cases h : c.id = ref <;>
      simp [Pane.modify, h, Pane.SetActive, Pane.withCommon, Pane.ids, iha, ihb]

theorem Pane.leaves_modify_SetActive (ref : PaneId) (t : Pane) :
    (t.modify ref Pane.SetActive).leaves = t.leaves := by
  induction t with
  | leaf c g x =>
    by_cases h : c.id = ref <;>
      simp [Pane.modify, h, Pane.SetActive, Pane.withCommon, Pane.leaves]
  | split c a b iha ihb =>
    by_cases h : c.id = ref <;>
      simp [Pane.modify, h, Pane.SetActive, Pane.withCommon, Pane.leaves, iha, ihb]

theorem Pane.mem_ids_of_mem_leaves (t : Pane) (i : PaneId) (g : GUID) (x : TermControl)
    (h : (i, g, x) ∈ t.leaves) : i ∈ t.ids := by
  induction t with
  | leaf c g0 x0 =>
    simp only [Pane.leaves, List.mem_singleton, Prod.mk.injEq] at h
    simp [Pane.ids, h.1]
  | split c a b iha ihb =>
    simp only [Pane.leaves, List.mem_append] at h
    simp only [Pane.ids, List.mem_cons, List.mem_append]
    rcases h with h | h
    · exact Or.inr (Or.inl (iha h))
    · exact Or.inr (Or.inr (ihb h))

/-- Marking one node of a tree without active flags leaves exactly that node
flagged, provided identities are unique. -/
theorem Pane.activeIds_modify_SetActive (ref : PaneId) (t : Pane)
    (hclear : t.activeIds = []) (hnodup : t.ids.Nodup) (hmem : ref ∈ t.ids) :
    (t.modify ref Pane.SetActive).activeIds = [ref] := by
  induction t with
  | leaf c g x =>
    simp only [Pane.ids, List.mem_singleton] at hmem
    simp [Pane.modify, hmem.symm, Pane.SetActive, Pane.withCommon, Pane.activeIds]
  | split c a b iha ihb =>
    simp only [Pane.ids, List.nodup_cons, List.mem_append, not_or, List.nodup_append] at hnodup
    obtain ⟨⟨hca, hcb⟩, hna, hnb, hdisj⟩ := hnodup
    simp only [Pane.activeIds, List.append_eq_nil, ite_eq_right_iff, List.cons_ne_nil,
      imp_false, Bool.not_eq_true] at hclear
    obtain ⟨hc, hact_a, hact_b⟩ := hclear
    by_cases h : c.id = ref
    · simp [Pane.modify, h, Pane.SetActive, Pane.withCommon, Pane.activeIds, hact_a, hact_b]
    · simp only [Pane.ids, List.mem_cons, List.mem_append] at hmem
      rcases hmem with hmem | hmem | hmem
      · exact absurd hmem.symm h
      · have hb : ref ∉ b.ids := fun hb => hdisj hmem hb
        simp [Pane.modify, h, Pane.activeIds, hc, iha hact_a hna hmem,
          Pane.modify_of_not_mem ref _ b hb, hact_b]
      · have ha : ref ∉ a.ids := fun ha => hdisj ha hmem
        simp [Pane.modify, h, Pane.activeIds, hc, ihb hact_b hnb hmem,
          Pane.modify_of_not_mem ref _ a ha, hact_a]

theorem Pane.find?_of_not_mem (ref : PaneId) (t : Pane) (h : ref ∉ t.ids) :
    t.find? ref = none := by
  induction t with
  | leaf c g x =>
    simp only [Pane.ids, List.mem_singleton] at h
    simp [Pane.find?, Ne.symm h]
  | split c a b iha ihb =>
    simp only [Pane.ids, List.mem_cons, List.mem_append, not_or] at h
    simp [Pane.find?, Ne.symm h.1, iha h.2.1, ihb h.2.2]

/-- With unique identities, a reference to a leaf of the tree resolves to that
leaf. -/
theorem Pane.find?_of_mem_leaves (ref : PaneId) (g : GUID) (x : TermControl) (t : Pane)
    (hnodup : t.ids.Nodup) (hmem : (ref, g, x) ∈ t.leaves) :
    ∃ c, t.find? ref = some (Pane.leaf c g x) ∧ c.id = ref := by
  induction t with
  | leaf c g0 x0 =>
    simp only [Pane.leaves, List.mem_singleton, Prod.mk.injEq] at hmem
    obtain ⟨h1, h2, h3⟩ := hmem
    exact ⟨c, by simp [Pane.find?, h1, h2, h3], h1.symm⟩
  | split c a b iha ihb =>
    simp only [Pane.ids, List.nodup_cons, List.mem_append, not_or, List.nodup_append] at hnodup
    obtain ⟨⟨hca, hcb⟩, hna, hnb, hdisj⟩ := hnodup
    simp only [Pane.leaves, List.mem_append] at hmem
    rcases hmem with hmem | hmem
    · have hin := Pane.mem_ids_of_mem_leaves a ref g x hmem
      have hne : c.id ≠ ref := fun e => hca (e ▸ hin)
      obtain ⟨c0, hfind, hid⟩ := iha hna hmem
      exact ⟨c0, by simp [Pane.find?, hne, hfind], hid⟩
    · have hin := Pane.mem_ids_of_mem_leaves b ref g x hmem
      have hne : c.id ≠ ref := fun e => hcb (e ▸ hin)
      have hna0 : ref ∉ a.ids := fun ha => hdisj ha hin
      obtain ⟨c0, hfind, hid⟩ := ihb hnb hmem
      exact ⟨c0, by simp [Pane.find?, hne, Pane.find?_of_not_mem ref a hna0, hfind], hid⟩

theorem Pane.find?_isSome_of_mem (ref : PaneId) (t : Pane) (h : ref ∈ t.ids) :
    ∃ p, t.find? ref = some p := by
  induction t with
  | leaf c g x =>
    simp only [Pane.ids, List.mem_singleton] at h
    exact ⟨Pane.leaf c g x, by simp [Pane.find?, h.symm]⟩
  | split c a b iha ihb =>
    by_cases hc : c.id = ref
    · exact ⟨Pane.split c a b, by simp [Pane.find?, hc]⟩
    · simp only [Pane.ids, List.mem_cons, List.mem_append] at h
      rcases h with h | h | h
      · exact absurd h.symm hc
      · obtain ⟨q, hq⟩ := iha h
        exact ⟨q, by simp [Pane.find?, hc, hq]⟩
      · cases hfa : a.find? ref with
        | some q => exact ⟨q, by simp [Pane.find?, hc, hfa]⟩
        | none =>
          obtain ⟨q, hq⟩ := ihb h
          exact ⟨q, by simp [Pane.find?, hc, hfa, hq]⟩

theorem Pane.modify_of_find?_none (ref : PaneId) (f : Pane → Pane) (t : Pane)
    (h : t.find? ref = none) : t.modify ref f = t := by
  apply Pane.modify_of_not_mem
  intro hmem
  obtain ⟨q, hq⟩ := Pane.find?_isSome_of_mem ref t hmem
  rw [h] at hq
  cases hq

/-- The tree a call through a reference leaves behind. -/
theorem Pane.callThrough_fst (root : Pane) (outside : Outside) (ref : PaneId)
    (f : Pane → Pane) : (root.callThrough outside ref f).1 = root.modify ref f := by
  unfold Pane.callThrough
  cases h : root.find? ref with
  | some q => rfl
  | none => exact (Pane.modify_of_find?_none ref f root h).symm

/-- A call through a reference to a node of the tree writes no outside pane. -/
theorem Pane.callThrough_snd_of_mem (root : Pane) (outside : Outside) (ref : PaneId)
    (f : Pane → Pane) (h : ref ∈ root.ids) : (root.callThrough outside ref f).2 = outside := by
  obtain ⟨q, hq⟩ := Pane.find?_isSome_of_mem ref root h
  simp [Pane.callThrough, hq]

/-- The active surface of a Tab whose active reference designates a leaf of its
tree is the surface of that leaf; likewise the profile. -/
theorem Tab.active_of_mem_leaves (tab : Tab) (outside : Outside) (g : GUID) (x : TermControl)
    (hnodup : tab.rootPane.ids.Nodup) (hmem : (tab.activePane, g, x) ∈ tab.rootPane.leaves) :
    tab.GetActiveTerminalControl outside = some x ∧ tab.GetFocusedProfile outside = some g := by
  obtain ⟨c, hfind, _⟩ := Pane.find?_of_mem_leaves tab.activePane g x tab.rootPane hnodup hmem
  simp [Tab.GetActiveTerminalControl, Tab.GetFocusedProfile, Pane.deref, hfind,
    Pane.GetTerminalControl, Pane.GetFocusedProfile]

/-- What the guarded block of the GotFocus lambda leaves behind when the sender
is new. -/
theorem Tab.gotFocusBody_of_ne (tab : Tab) (outside : Outside) (controls : Controls)
    (sender : PaneId) (hne : sender ≠ tab.activePane) :
    tab.gotFocusBody outside controls sender =
      ({ rootPane := tab.rootPane.ClearActive.modify sender Pane.SetActive,
         activePane := sender, focused := tab.focused,
         Title := Tab.GetActiveTitle
           { rootPane := tab.rootPane.ClearActive.modify sender Pane.SetActive,
             activePane := sender, focused := tab.focused, Title := tab.Title,
             IconPath := tab.IconPath }
           (tab.rootPane.ClearActive.callThrough outside sender Pane.SetActive).2 controls,
         IconPath := tab.IconPath },
       (tab.rootPane.ClearActive.callThrough outside sender Pane.SetActive).2,
       [Effect.PropertyChanged "Title", Effect.ActivePaneChanged]) := by
  simp [Tab.gotFocusBody, hne, Tab.setTitle, Pane.callThrough_fst]

theorem Tab.gotFocusBody_of_eq (tab : Tab) (outside : Outside) (controls : Controls)
    (sender : PaneId) (heq : sender = tab.activePane) :
    tab.gotFocusBody outside controls sender = (tab, outside, []) := by
  simp [Tab.gotFocusBody, heq]

/-- The tree the GotFocus lambda leaves behind has the nodes and the leaves of
the tree it started from. -/
theorem Pane.shape_after_gotFocus (sender : PaneId) (t : Pane) :
    (t.ClearActive.modify sender Pane.SetActive).ids = t.ids ∧
    (t.ClearActive.modify sender Pane.SetActive).leaves = t.leaves := by
  rw [Pane.ids_modify_SetActive, Pane.leaves_modify_SetActive, Pane.ids_ClearActive,
    Pane.leaves_ClearActive]
  exact ⟨rfl, rfl⟩

/-! ## The Tab's GotFocus handler -/

/-- C1: for every Tab whose panes have distinct identities and every leaf
`sender` of its tree other than the cached active pane, the GotFocus handler
returns a Tab in which exactly one pane of the tree is marked active, that pane
is `sender`, and the cached active-pane reference is `sender`; the tree is the
old one cleared from the root and then marked at `sender`, with the same nodes
and leaves, and no pane outside the tree is written. -/
theorem gotFocus_marks_exactly_sender (tab : Tab) (outside : Outside) (controls : Controls)
    (sender : PaneId) (profile : GUID) (control : TermControl)
    (hnodup : tab.rootPane.ids.Nodup)
    (hleaf : (sender, profile, control) ∈ tab.rootPane.leaves)
    (hne : sender ≠ tab.activePane) :
    ∃ tab1 effects,
      Tab.gotFocusLambda (some tab) outside controls sender = (some tab1, outside, effects) ∧
      tab1.rootPane.activeIds = [sender] ∧
      tab1.activePane = sender ∧
      tab1.rootPane = tab.rootPane.ClearActive.modify sender Pane.SetActive ∧
      tab1.rootPane.ids = tab.rootPane.ids ∧
      tab1.rootPane.leaves = tab.rootPane.leaves := by
  have hmem : sender ∈ tab.rootPane.ClearActive.ids := by
    rw [Pane.ids_ClearActive]
    exact Pane.mem_ids_of_mem_leaves _ _ _ _ hleaf
  have hout := Pane.callThrough_snd_of_mem tab.rootPane.ClearActive outside sender
    Pane.SetActive hmem
  refine ⟨_, _,
    by rw [Tab.gotFocusLambda, Tab.gotFocusBody_of_ne tab outside controls sender hne, hout],
    ?_, rfl, rfl, ?_, ?_⟩
  · apply Pane.activeIds_modify_SetActive
    · exact Pane.activeIds_ClearActive _
    · rw [Pane.ids_ClearActive]; exact hnodup
    · exact hmem
  · exact (Pane.shape_after_gotFocus sender tab.rootPane).1
  · exact (Pane.shape_after_gotFocus sender tab.rootPane).2

/-- Witness for C1: leaf 2 gains focus in the two-leaf sample whose active pane
is leaf 1. -/
theorem gotFocus_marks_exactly_sender_witness :
    sampleTab.rootPane.ids.Nodup ∧ (2, 8, 4) ∈ sampleTab.rootPane.leaves ∧
    2 ≠ sampleTab.activePane ∧
    ∃ tab1 effects,
      Tab.gotFocusLambda (some sampleTab) sampleOutside sampleControls 2 =
        (some tab1, sampleOutside, effects) ∧
      tab1.rootPane.activeIds = [2] ∧
      tab1.activePane = 2 ∧
      tab1.rootPane = sampleTab.rootPane.ClearActive.modify 2 Pane.SetActive ∧
      tab1.rootPane.ids = sampleTab.rootPane.ids ∧
      tab1.rootPane.leaves = sampleTab.rootPane.leaves :=
  ⟨by decide, by decide, by decide,
    gotFocus_marks_exactly_sender sampleTab sampleOutside sampleControls 2 8 4
      (by decide) (by decide) (by decide)⟩

/-- C2: when `sender` differs from the cached active pane the GotFocus handler
fires ActivePaneChanged exactly once, makes `sender` the cached active pane and
sets the Tab title to the active title of the new state, which is the title of
the surface of `sender` when `sender` is a leaf of a tree with distinct
identities; when `sender` is the cached active pane the handler returns the Tab
and the outside panes as they were and makes no outbound call. Delivering
GotFocus a second time with the same sender changes nothing and fires nothing,
so the two deliveries together fire ActivePaneChanged at most once. -/
theorem gotFocus_fires_once_and_sets_title (tab : Tab) (outside : Outside)
    (controls : Controls) (sender : PaneId) :
    (sender ≠ tab.activePane →
      ∃ tab1 outside1 effects,
        Tab.gotFocusLambda (some tab) outside controls sender = (some tab1, outside1, effects) ∧
        countActivePaneChanged effects = 1 ∧
        tab1.activePane = sender ∧
        tab1.Title = tab1.GetActiveTitle outside1 controls ∧
        ∀ profile control, tab.rootPane.ids.Nodup →
          (sender, profile, control) ∈ tab.rootPane.leaves →
          tab1.Title = (controls control).title) ∧
    (sender = tab.activePane →
      Tab.gotFocusLambda (some tab) outside controls sender = (some tab, outside, [])) ∧
    (∀ controls2 : Controls,
      Tab.gotFocusLambda (Tab.gotFocusLambda (some tab) outside controls sender).1
          (Tab.gotFocusLambda (some tab) outside controls sender).2.1 controls2 sender =
        ((Tab.gotFocusLambda (some tab) outside controls sender).1,
         (Tab.gotFocusLambda (some tab) outside controls sender).2.1, []) ∧
      countActivePaneChanged
        ((Tab.gotFocusLambda (some tab) outside controls sender).2.2 ++
         (Tab.gotFocusLambda (Tab.gotFocusLambda (some tab) outside controls sender).1
            (Tab.gotFocusLambda (some tab) outside controls sender).2.1
            controls2 sender).2.2) ≤ 1) := by
  refine ⟨fun hne => ?_, fun heq => ?_, fun controls2 => ?_⟩
  · refine ⟨_, _, _,
      by rw [Tab.gotFocusLambda, Tab.gotFocusBody_of_ne tab outside controls sender hne],
      by simp [countActivePaneChanged], rfl, rfl, ?_⟩
    intro profile control hnodup hleaf
    have hshape := Pane.shape_after_gotFocus sender tab.rootPane
    have hact := Tab.active_of_mem_leaves
      { rootPane := tab.rootPane.ClearActive.modify sender Pane.SetActive,
        activePane := sender, focused := tab.focused, Title := tab.Title,
        IconPath := tab.IconPath }
      (tab.rootPane.ClearActive.callThrough outside sender Pane.SetActive).2 profile control
      (by rw [hshape.1]; exact hnodup) (by rw [hshape.2]; exact hleaf)
    simp only [Tab.GetActiveTitle, hact.1]
  · simp [Tab.gotFocusLambda, Tab.gotFocusBody_of_eq tab outside controls sender heq]
  · by_cases h : sender = tab.activePane
    · simp [Tab.gotFocusLambda, Tab.gotFocusBody_of_eq tab outside controls sender h,
        Tab.gotFocusBody_of_eq tab outside controls2 sender h, countActivePaneChanged]
    · simp only [Tab.gotFocusLambda, Tab.gotFocusBody_of_ne tab outside controls sender h]
      rw [Tab.gotFocusBody_of_eq _ _ controls2 sender rfl]
      exact ⟨rfl, by simp [countActivePaneChanged]⟩

/-- Witness for C2: in the two-leaf sample, focus moving to leaf 2 fires
ActivePaneChanged once and the title becomes the title of surface 4. -/
theorem gotFocus_fires_once_and_sets_title_witness :
    ∃ tab1 outside1 effects,
      Tab.gotFocusLambda (some sampleTab) sampleOutside sampleControls 2 =
        (some tab1, outside1, effects) ∧
      countActivePaneChanged effects = 1 ∧
      tab1.activePane = 2 ∧
      tab1.Title = tab1.GetActiveTitle outside1 sampleControls ∧
      ∀ profile control, sampleTab.rootPane.ids.Nodup →
        (2, profile, control) ∈ sampleTab.rootPane.leaves →
        tab1.Title = (sampleControls control).title :=
  (gotFocus_fires_once_and_sets_title sampleTab sampleOutside sampleControls 2).1 (by decide)

/-! ## Construction and the root's events -/

/-- C3, as the claim states it, fails: for the Tab built for profile 7 and
surface 3 (root pane object 0), a GotFocus raised by the root with sender 1,
which is not the cached active pane 0, runs no handler of the Tab, because the
constructor registered none on that event; the Tab is returned unchanged, no
outbound call is made, and the cached active pane is still 0, not the sender. -/
theorem construct_gotFocus_not_delivered :
    sampleFresh.rootPane.common.gotFocusHandlers = [] ∧
    (1 : PaneId) ≠ sampleFresh.activePane ∧
    (sampleFresh.raiseRootGotFocus sampleOutside sampleControls 1).1 = sampleFresh ∧
    (sampleFresh.raiseRootGotFocus sampleOutside sampleControls 1).2.2 = [] ∧
    (sampleFresh.raiseRootGotFocus sampleOutside sampleControls 1).1.activePane ≠ 1 := by
  decide

/-- C3, amended: the constructor subscribes the Tab to the root's Closed event
only. Immediately after construction a Closed raised by the root reaches the
Tab's Closed handlers, exactly once, and a GotFocus raised by the root reaches no
handler of the Tab and changes nothing. The GotFocus subscription is the one
`_AttachEventHandlersToPane` makes: once it has been applied to the root, a
GotFocus raised by the root with a sender other than the cached active pane
makes that sender the cached active pane and fires ActivePaneChanged once. -/
theorem construct_subscribes_closed_only (profile : GUID) (control : TermControl)
    (addr : PaneId) (focused : Bool) (title iconPath : hstring) (outside : Outside)
    (controls : Controls) (sender : PaneId) :
    (Tab.Construct profile control addr focused title iconPath).rootPane.common.closedHandlers
      = [ClosedHandler.tabClosed] ∧
    (Tab.Construct profile control addr focused title iconPath).rootPane.common.gotFocusHandlers
      = [] ∧
    (Tab.Construct profile control addr focused title iconPath).raiseRootClosed =
      (Tab.Construct profile control addr focused title iconPath, [Effect.Closed none none]) ∧
    (Tab.Construct profile control addr focused title iconPath).raiseRootGotFocus
        outside controls sender
      = (Tab.Construct profile control addr focused title iconPath, outside, []) ∧
    (sender ≠ (Tab.Construct profile control addr focused title iconPath).activePane →
      (((Tab.Construct profile control addr focused title iconPath)._AttachEventHandlersToPane
          outside (Tab.Construct profile control addr focused title iconPath).rootPane.id
        ).1.raiseRootGotFocus
          ((Tab.Construct profile control addr focused title iconPath)._AttachEventHandlersToPane
            outside (Tab.Construct profile control addr focused title iconPath).rootPane.id).2
          controls sender).1.activePane = sender ∧
      countActivePaneChanged
        (((Tab.Construct profile control addr focused title iconPath)._AttachEventHandlersToPane
            outside (Tab.Construct profile control addr focused title iconPath).rootPane.id
          ).1.raiseRootGotFocus
            ((Tab.Construct profile control addr focused title iconPath)._AttachEventHandlersToPane
              outside (Tab.Construct profile control addr focused title iconPath).rootPane.id).2
            controls sender).2.2 = 1) := by
  refine ⟨rfl, rfl, rfl, rfl, fun hne => ?_⟩
  have hne2 : sender ≠ addr := hne
  have hattach :
      (Tab.Construct profile control addr focused title iconPath)._AttachEventHandlersToPane
          outside (Tab.Construct profile control addr focused title iconPath).rootPane.id =
        ({ rootPane := Pane.leaf { id := addr, lastActive := true,
                                   closedHandlers := [ClosedHandler.tabClosed],
                                   gotFocusHandlers := [GotFocusHandler.tabGotFocus] }
                         profile control,
           activePane := addr, focused := focused, Title := title, IconPath := iconPath },
         outside) := by
    simp [Tab.Construct, Tab._AttachEventHandlersToPane, Pane.create, Pane.Closed, Pane.GotFocus,
      Pane.withCommon, Pane.callThrough, Pane.find?, Pane.modify, Pane.id, Pane.common]
  rw [hattach]
  simp only [Tab.raiseRootGotFocus, Pane.common, List.foldl, Tab.runGotFocusHandler,
    Tab.gotFocusLambda]
  rw [Tab.gotFocusBody_of_ne _ outside controls sender hne2]
  exact ⟨rfl, by simp [countActivePaneChanged]⟩

/-- Witness for C3, amended: the Tab built for profile 7 and surface 3, its root
attached, receives GotFocus with sender 1. -/
theorem construct_subscribes_closed_only_witness :
    (1 : PaneId) ≠ sampleFresh.activePane ∧
    ((sampleFresh._AttachEventHandlersToPane sampleOutside sampleFresh.rootPane.id
      ).1.raiseRootGotFocus
        (sampleFresh._AttachEventHandlersToPane sampleOutside sampleFresh.rootPane.id).2
        sampleControls 1).1.activePane = 1 ∧
    countActivePaneChanged
      ((sampleFresh._AttachEventHandlersToPane sampleOutside sampleFresh.rootPane.id
        ).1.raiseRootGotFocus
          (sampleFresh._AttachEventHandlersToPane sampleOutside sampleFresh.rootPane.id).2
          sampleControls 1).2.2 = 1 :=
  ⟨by decide,
    (construct_subscribes_closed_only 7 3 0 false "" "" sampleOutside sampleControls 1).2.2.2.2
      (by decide)⟩

/-- C4: the Tab built by the constructor has as root a single leaf that wraps the
given surface and profile, was created with its active flag set and carries the
Tab's Closed subscription; it is the only pane marked active; the cached active
pane is that root; `GetActiveTerminalControl` returns the given surface and
`GetFocusedProfile` the given profile, whatever panes exist outside the tree. -/
theorem construct_single_active_leaf (profile : GUID) (control : TermControl) (addr : PaneId)
    (focused : Bool) (title iconPath : hstring) (outside : Outside) :
    (Tab.Construct profile control addr focused title iconPath).rootPane =
      Pane.leaf { id := addr, lastActive := true, closedHandlers := [ClosedHandler.tabClosed],
                  gotFocusHandlers := [] } profile control ∧
    (Tab.Construct profile control addr focused title iconPath).rootPane.leaves =
      [(addr, profile, control)] ∧
    (Tab.Construct profile control addr focused title iconPath).rootPane.activeIds = [addr] ∧
    (Tab.Construct profile control addr focused title iconPath).activePane =
      (Tab.Construct profile control addr focused title iconPath).rootPane.id ∧
    (Tab.Construct profile control addr focused title iconPath).GetActiveTerminalControl outside =
      some control ∧
    (Tab.Construct profile control addr focused title iconPath).GetFocusedProfile outside =
      some profile := by
  simp [Tab.Construct, Pane.create, Pane.Closed, Pane.withCommon, Pane.leaves, Pane.activeIds,
    Pane.id, Pane.common, Tab.GetActiveTerminalControl, Tab.GetFocusedProfile, Pane.deref,
    Pane.find?, Pane.GetTerminalControl, Pane.GetFocusedProfile]

/-- C5: for every Tab that holds the one Closed subscription the constructor
makes on its root, a Closed event raised by the root returns the Tab unchanged
in every field and fires the Tab's own Closed event exactly once, with null
sender and null arguments; each run of the subscribed lambda does the same. -/
theorem root_closed_fires_tab_closed_once (tab : Tab)
    (hsub : tab.rootPane.common.closedHandlers = [ClosedHandler.tabClosed]) :
    tab.raiseRootClosed = (tab, [Effect.Closed none none]) ∧
    countClosed tab.raiseRootClosed.2 = 1 ∧
    tab.closedLambda = (tab, [Effect.Closed none none]) := by
  simp [Tab.raiseRootClosed, hsub, Tab.runClosedHandler, Tab.closedLambda, countClosed]

/-- Witness for C5: the Tab fresh from the constructor. -/
theorem root_closed_fires_tab_closed_once_witness :
    sampleFresh.rootPane.common.closedHandlers = [ClosedHandler.tabClosed] ∧
    sampleFresh.raiseRootClosed = (sampleFresh, [Effect.Closed none none]) ∧
    countClosed sampleFresh.raiseRootClosed.2 = 1 ∧
    sampleFresh.closedLambda = (sampleFresh, [Effect.Closed none none]) :=
  ⟨by decide, root_closed_fires_tab_closed_once sampleFresh (by decide)⟩

/-! ## Focus, accessors, icon -/

theorem Tab._Focus_fst (tab : Tab) (outside : Outside) :
    (tab._Focus outside).1 = { tab with focused := true } := by
  simp only [Tab._Focus]
  cases h : Tab.GetActiveTerminalControl { tab with focused := true } outside <;> rfl

theorem Tab.SetFocused_fst (tab : Tab) (outside : Outside) (b : Bool) :
    (tab.SetFocused outside b).1 = { tab with focused := b } := by
  cases b
  · simp [Tab.SetFocused]
  · simp [Tab.SetFocused, Tab._Focus_fst]

/-- C6: after `SetFocused(b)`, `IsFocused()` is `b` and the root pane, the cached
active pane, the title and the icon path are as before. `SetFocused(false)`
makes no outbound call. `SetFocused(true)`, whatever the flag was before and so
in particular on a transition to true, sends exactly one focus request, to the
active surface, when there is one, and none when there is none. -/
theorem setFocused_stores_flag_and_focuses (tab : Tab) (outside : Outside) (b : Bool) :
    (tab.SetFocused outside b).1.IsFocused = b ∧
    (tab.SetFocused outside b).1.rootPane = tab.rootPane ∧
    (tab.SetFocused outside b).1.activePane = tab.activePane ∧
    (tab.SetFocused outside b).1.Title = tab.Title ∧
    (tab.SetFocused outside b).1.IconPath = tab.IconPath ∧
    (tab.SetFocused outside false).2 = [] ∧
    (∀ control, tab.GetActiveTerminalControl outside = some control →
      (tab.SetFocused outside true).2 = [Effect.Focus control FocusState.Programmatic]) ∧
    (tab.GetActiveTerminalControl outside = none → (tab.SetFocused outside true).2 = []) ∧
    (∀ profile control, tab.rootPane.ids.Nodup →
      (tab.activePane, profile, control) ∈ tab.rootPane.leaves →
      (tab.SetFocused outside true).2 = [Effect.Focus control FocusState.Programmatic]) := by
  have key : ∀ control, tab.GetActiveTerminalControl outside = some control →
      (tab.SetFocused outside true).2 = [Effect.Focus control FocusState.Programmatic] := by
    intro control h
    have h2 : Tab.GetActiveTerminalControl { tab with focused := true } outside =
        some control := h
    simp [Tab.SetFocused, Tab._Focus, h2]
  have hnone : tab.GetActiveTerminalControl outside = none →
      (tab.SetFocused outside true).2 = [] := by
    intro h
    have h2 : Tab.GetActiveTerminalControl { tab with focused := true } outside = none := h
    simp [Tab.SetFocused, Tab._Focus, h2]
  have hfst := Tab.SetFocused_fst tab outside b
  refine ⟨?_, ?_, ?_, ?_, ?_, by simp [Tab.SetFocused], key, hnone, ?_⟩
  · rw [hfst]; rfl
  · rw [hfst]
  · rw [hfst]
  · rw [hfst]
  · rw [hfst]
  · intro profile control hnodup hleaf
    exact key control (Tab.active_of_mem_leaves tab outside profile control hnodup hleaf).1

/-- Witness for C6: giving focus to the two-leaf sample, whose active leaf 1
wraps surface 3. -/
theorem setFocused_stores_flag_and_focuses_witness :
    sampleTab.GetActiveTerminalControl sampleOutside = some 3 ∧
    (sampleTab.SetFocused sampleOutside true).2 = [Effect.Focus 3 FocusState.Programmatic] :=
  ⟨by decide,
    (setFocused_stores_flag_and_focuses sampleTab sampleOutside true).2.2.2.2.2.2.1 3
      (by decide)⟩

/-- C8: `UpdateIcon(p)` with `p` equal to the current icon path returns the Tab
unchanged and signals nothing; otherwise the icon path becomes `p`, nothing else
changes, and one PropertyChanged is signalled. In both cases the icon path
afterwards is `p`, and a second `UpdateIcon(p)` changes nothing and signals
nothing. -/
theorem updateIcon_guarded_and_idempotent (tab : Tab) (p : hstring) :
    (p = tab.IconPath → tab.UpdateIcon p = (tab, [])) ∧
    (p ≠ tab.IconPath →
      tab.UpdateIcon p = ({ tab with IconPath := p }, [Effect.PropertyChanged "IconPath"]) ∧
      countPropertyChanged (tab.UpdateIcon p).2 = 1) ∧
    (tab.UpdateIcon p).1.IconPath = p ∧
    (tab.UpdateIcon p).1.UpdateIcon p = ((tab.UpdateIcon p).1, []) := by
  by_cases h : p = tab.IconPath
  · simp [Tab.UpdateIcon, h]
  · simp [Tab.UpdateIcon, h, Tab.setIconPath, countPropertyChanged]

/-- Witness for C8: a new icon path on the two-leaf sample. -/
theorem updateIcon_guarded_and_idempotent_witness :
    "b.png" ≠ sampleTab.IconPath ∧
    sampleTab.UpdateIcon "b.png" =
      ({ sampleTab with IconPath := "b.png" }, [Effect.PropertyChanged "IconPath"]) ∧
    countPropertyChanged (sampleTab.UpdateIcon "b.png").2 = 1 :=
  ⟨by decide, (updateIcon_guarded_and_idempotent sampleTab "b.png").2.1 (by decide)⟩

/-! ## Scroll -/

theorem toInt32_of_inRange (x : Int) (hlo : -2147483648 ≤ x) (hhi : x ≤ 2147483647) :
    toInt32 x = x := by
  unfold toInt32
  omega

/-- C9: for every Tab whose active reference designates a leaf of its tree
(distinct identities) and every `delta`, `Scroll(delta)` returns the Tab
unchanged and hands the dispatcher one callback holding that leaf's surface and
`delta`. Run against any state of the surfaces, the callback sets the offset of
that surface to the `int` sum of the offset it reads then and `delta` (the
mathematical sum whenever that is an `int`), keeps its title and settings, and
leaves every other surface as it is. -/
theorem scroll_moves_only_active_surface (tab : Tab) (outside : Outside) (delta : Int)
    (profile : GUID) (control : TermControl)
    (hnodup : tab.rootPane.ids.Nodup)
    (hleaf : (tab.activePane, profile, control) ∈ tab.rootPane.leaves) :
    tab.Scroll outside delta =
      some (tab, [Effect.RunAsync { control := control, delta := delta }]) ∧
    ∀ controls : Controls,
      (ScrollCallback.run { control := control, delta := delta } controls control).scrollOffset =
        toInt32 ((controls control).scrollOffset + delta) ∧
      (-2147483648 ≤ (controls control).scrollOffset + delta →
        (controls control).scrollOffset + delta ≤ 2147483647 →
        (ScrollCallback.run { control := control, delta := delta } controls control).scrollOffset
          = (controls control).scrollOffset + delta) ∧
      (ScrollCallback.run { control := control, delta := delta } controls control).title =
        (controls control).title ∧
      (ScrollCallback.run { control := control, delta := delta } controls control).settings =
        (controls control).settings ∧
      ∀ other : TermControl, other ≠ control →
        ScrollCallback.run { control := control, delta := delta } controls other =
          controls other := by
  have hact := (Tab.active_of_mem_leaves tab outside profile control hnodup hleaf).1
  refine ⟨by simp [Tab.Scroll, hact], fun controls => ⟨?_, ?_, ?_, ?_, ?_⟩⟩
  · simp [ScrollCallback.run]
  · intro hlo hhi
    simp [ScrollCallback.run, toInt32_of_inRange _ hlo hhi]
  · simp [ScrollCallback.run]
  · simp [ScrollCallback.run]
  · intro other hother
    simp [ScrollCallback.run, Function.update, hother]

/-- Witness for C9: scrolling the two-leaf sample, whose active leaf 1 wraps
surface 3, by 5 lines. -/
theorem scroll_moves_only_active_surface_witness :
    sampleTab.rootPane.ids.Nodup ∧ (sampleTab.activePane, 7, 3) ∈ sampleTab.rootPane.leaves ∧
    sampleTab.Scroll sampleOutside 5 =
      some (sampleTab, [Effect.RunAsync { control := 3, delta := 5 }]) ∧
    (ScrollCallback.run { control := 3, delta := 5 } sampleControls 3).scrollOffset =
      toInt32 ((sampleControls 3).scrollOffset + 5) ∧
    ScrollCallback.run { control := 3, delta := 5 } sampleControls 4 = sampleControls 4 :=
  have h := scroll_moves_only_active_surface sampleTab sampleOutside 5 7 3 (by decide) (by decide)
  ⟨by decide, by decide, h.1, (h.2 sampleControls).1,
    (h.2 sampleControls).2.2.2.2 4 (by decide)⟩

/-! ## UpdateSettings -/

/-- Pointwise description of the traversal: a surface ends with the new settings
exactly when some leaf created under the profile wraps it. -/
theorem Pane.UpdateSettings_apply (settings : TerminalSettings) (P : GUID) (t : Pane)
    (controls : Controls) (x : TermControl) :
    t.UpdateSettings settings P controls x =
      if x ∈ (t.leaves.filter fun l => decide (l.2.1 = P)).map (fun l => l.2.2) then
        { controls x with settings := settings }
      else controls x := by
  induction t generalizing controls with
  | leaf c g y =>
    by_cases hP : P = g
    · by_cases hx : x = y
      · subst hP; subst hx
        simp [Pane.UpdateSettings, Pane.applySettings, Pane.leaves]
      · subst hP
        simp [Pane.UpdateSettings, Pane.applySettings, Pane.leaves, Function.update, hx]
    · have hP2 : ¬ g = P := fun e => hP e.symm
      simp [Pane.UpdateSettings, Pane.leaves, hP, hP2]
  | split c a b iha ihb =>
    simp only [Pane.UpdateSettings, Pane.leaves, List.filter_append, List.map_append,
      List.mem_append]
    rw [ihb, iha]
    by_cases ha : x ∈ (a.leaves.filter fun l => decide (l.2.1 = P)).map (fun l => l.2.2) <;>
      by_cases hb : x ∈ (b.leaves.filter fun l => decide (l.2.1 = P)).map (fun l => l.2.2) <;>
      simp [ha, hb]

/-- C10: `UpdateSettings(settings, P)` returns the Tab unchanged and writes the
surfaces by the traversal that starts at the root pane, so its outcome does not
depend on which pane is the active one. Afterwards the surface of every leaf
created under `P` holds `settings`; when every leaf has its own surface, the
surface of every leaf created under another profile is exactly as before; and
no surface has its title or scroll offset changed. -/
theorem updateSettings_reaches_matching_leaves (tab : Tab) (controls : Controls)
    (settings : TerminalSettings) (P : GUID) :
    (tab.UpdateSettings controls settings P).1 = tab ∧
    (tab.UpdateSettings controls settings P).2 =
      tab.rootPane.UpdateSettings settings P controls ∧
    (∀ active : PaneId,
      (Tab.UpdateSettings { tab with activePane := active } controls settings P).2 =
        (tab.UpdateSettings controls settings P).2) ∧
    (∀ i profile control, (i, profile, control) ∈ tab.rootPane.leaves → profile = P →
      ((tab.UpdateSettings controls settings P).2 control).settings = settings) ∧
    (∀ i profile control, (tab.rootPane.leaves.map fun l => l.2.2).Nodup →
      (i, profile, control) ∈ tab.rootPane.leaves → profile ≠ P →
      (tab.UpdateSettings controls settings P).2 control = controls control) ∧
    (∀ control,
      ((tab.UpdateSettings controls settings P).2 control).title = (controls control).title ∧
      ((tab.UpdateSettings controls settings P).2 control).scrollOffset =
        (controls control).scrollOffset) := by
  refine ⟨rfl, rfl, fun _ => rfl, ?_, ?_, ?_⟩
  · intro i profile control hmem hP
    have hin : control ∈
        (tab.rootPane.leaves.filter fun l => decide (l.2.1 = P)).map (fun l => l.2.2) := by
      simp only [List.mem_map, List.mem_filter, decide_eq_true_eq]
      exact ⟨(i, profile, control), ⟨hmem, hP⟩, rfl⟩
    simp only [Tab.UpdateSettings]
    rw [Pane.UpdateSettings_apply, if_pos hin]
  · intro i profile control hnodup hmem hP
    have hnot : control ∉
        (tab.rootPane.leaves.filter fun l => decide (l.2.1 = P)).map (fun l => l.2.2) := by
      simp only [List.mem_map, List.mem_filter, decide_eq_true_eq, not_exists, not_and]
      intro l hl hlc
      have heq := List.inj_on_of_nodup_map hnodup hl.1 hmem hlc
      exact hP (by rw [← hl.2, heq])
    simp only [Tab.UpdateSettings]
    rw [Pane.UpdateSettings_apply, if_neg hnot]
  · intro control
    simp only [Tab.UpdateSettings]
    rw [Pane.UpdateSettings_apply]
    split <;> exact ⟨rfl, rfl⟩

/-- Witness for C10: new settings 9 for profile 8 in the two-leaf sample, whose
active leaf 1 was created under profile 7 and whose leaf 2 under profile 8. -/
theorem updateSettings_reaches_matching_leaves_witness :
    (2, 8, 4) ∈ sampleTab.rootPane.leaves ∧
    ((sampleTab.UpdateSettings sampleControls 9 8).2 4).settings = 9 ∧
    (sampleTab.rootPane.leaves.map fun l => l.2.2).Nodup ∧
    (1, 7, 3) ∈ sampleTab.rootPane.leaves ∧
    (sampleTab.UpdateSettings sampleControls 9 8).2 3 = sampleControls 3 :=
  have h := updateSettings_reaches_matching_leaves sampleTab sampleControls 9 8
  ⟨by decide, h.2.2.2.1 2 8 4 (by decide) rfl, by decide, by decide,
    h.2.2.2.2.1 1 7 3 (by decide) (by decide) (by decide)⟩

end TerminalApp
